/-
  Verification of the workflow recorder's element-identification,
  page-readiness and event-capture subsystems.

  The definitions below are a shallow embedding of the TypeScript sources:
  - src/content/selectorStrategies.ts and src/content/DOMAnalyzer.ts
    (selector strategies, dynamic-id heuristics, confidence scoring),
  - the injectable PageLoadDetector (waitForPageReady / performAllChecks /
    createTimeout) with an explicit timing model for the promise race,
  - src/background/RecorderController.ts (isNavigationEvent,
    shouldCaptureVisual and the capture-timing decision),
  - the content-script Recorder (shouldMaskValue / handleInput) and
    src/content/eventHandlers.ts (handleChange).
-/
import Mathlib

/-! ## String helpers

  JavaScript's `String.prototype.includes` and the regular expressions used
  by the source are modelled as decidable predicates on Lean strings. -/

/-- Does the character list `hay` start with the pattern `pat`?
    (Models the beginning-of-string part of a regex match.) -/
def charsStart : List Char → List Char → Bool
  | [], _ => true
  | _ :: _, [] => false
  | p :: ps, c :: cs => p = c && charsStart ps cs

/-- Does `pat` occur as a contiguous run anywhere inside `hay`?
    Models JavaScript `hay.includes(pat)` (true for the empty pattern). -/
def charsHasSub (pat : List Char) : List Char → Bool
  | [] => charsStart pat []
  | c :: cs => charsStart pat (c :: cs) || charsHasSub pat cs

/-- JavaScript `s.includes(pat)`. -/
def containsSub (s pat : String) : Bool :=
  charsHasSub pat.toList s.toList

/-- JavaScript `s.startsWith(pre)`. -/
def strStarts (s pre : String) : Bool :=
  charsStart pre.toList s.toList

/-- JavaScript `s.toLowerCase()` (over the ASCII range the source uses). -/
def strToLower (s : String) : String :=
  String.mk (s.toList.map Char.toLower)

/-- The global single-quote escaping performed by the text strategy
    (each quote becomes a backslash-quote pair). -/
def escapeQuotes : List Char → List Char
  | [] => []
  | c :: cs =>
      if c = '\'' then '\\' :: '\'' :: escapeQuotes cs
      else c :: escapeQuotes cs

/-- A hexadecimal digit, either case (the `/i` flag on `[a-f0-9]`). -/
def isHexChar (c : Char) : Bool :=
  c.isDigit || ('a' ≤ c && c ≤ 'f') || ('A' ≤ c && c ≤ 'F')

/-- A character of the class `[0-9a-z]` (lowercase, no flag). -/
def isLowerAlnum (c : Char) : Bool :=
  c.isDigit || ('a' ≤ c && c ≤ 'z')

/-! Patterns of `isDynamicId` in selectorStrategies.ts. -/

/-- Regex `/^[a-f0-9]{8,}$/i`: long hex strings. -/
def reLongHex (s : String) : Bool :=
  decide (8 ≤ s.length) && s.toList.all isHexChar

/-- Regex `/^[0-9]{8,}$/`: long numbers. -/
def reLongNum (s : String) : Bool :=
  decide (8 ≤ s.length) && s.toList.all (·.isDigit)

/-- Regex `/^_[0-9]+$/`: underscore followed by one or more digits. -/
def reUnderscoreNum (s : String) : Bool :=
  match s.toList with
  | '_' :: rest => (!rest.isEmpty) && rest.all (·.isDigit)
  | _ => false

/-- One or more `[0-9a-z]` characters immediately followed by a colon. -/
def alnumThenColon : List Char → Bool
  | [] => false
  | c :: cs =>
      isLowerAlnum c && ((cs.head? == some ':') || alnumThenColon cs)

/-- Regex `/:r[0-9a-z]+:/` (unanchored): a React-style id occurs somewhere. -/
def reactSearch : List Char → Bool
  | [] => false
  | c :: rest =>
      (c = ':' &&
        (match rest with
         | 'r' :: rest2 => alnumThenColon rest2
         | _ => false)) || reactSearch rest

/-- Regex `/^mui-[0-9]+$/`: Material UI auto ids. -/
def reMui (s : String) : Bool :=
  strStarts s "mui-" &&
    (let rest := (s.toList.drop 4)
     (!rest.isEmpty) && rest.all (·.isDigit))

/-- Regex `/^radix-[0-9]+$/`: Radix UI auto ids. -/
def reRadix (s : String) : Bool :=
  strStarts s "radix-" &&
    (let rest := (s.toList.drop 6)
     (!rest.isEmpty) && rest.all (·.isDigit))

/-- `isDynamicId` from selectorStrategies.ts: does an id look
    dynamically generated? -/
def isDynamicId (id : String) : Bool :=
  reLongHex id || reLongNum id || reUnderscoreNum id ||
    reactSearch id.toList || reMui id || reRadix id

/-- `isDynamicValue` from selectorStrategies.ts: same heuristic as ids. -/
def isDynamicValue (value : String) : Bool :=
  isDynamicId value

/-- Regex `/^[a-z]-[a-f0-9]{6,}$/i`: CSS-modules style hashed class. -/
def reCssModules (s : String) : Bool :=
  match s.toList with
  | c :: '-' :: rest =>
      c.isAlpha && decide (6 ≤ rest.length) && rest.all isHexChar
  | _ => false

/-- Regex `/^css-[a-z0-9]+$/i`: Emotion / styled-components class. -/
def reEmotion (s : String) : Bool :=
  match s.toList with
  | c1 :: c2 :: c3 :: c4 :: rest =>
      c1.toLower = 'c' && c2.toLower = 's' && c3.toLower = 's' && c4 = '-' &&
        (!rest.isEmpty) && rest.all (fun c => c.isDigit || c.isAlpha)
  | _ => false

/-- Regex `/^[A-Z][a-z]+-[a-z]+-[0-9]+$/`: MUI class convention. -/
def reMuiClass (s : String) : Bool :=
  match s.toList with
  | c :: rest =>
      c.isUpper &&
        (let p1 := rest.takeWhile (·.isLower)
         let r1 := rest.dropWhile (·.isLower)
         (!p1.isEmpty) &&
           match r1 with
           | '-' :: r2 =>
               let p2 := r2.takeWhile (·.isLower)
               let r3 := r2.dropWhile (·.isLower)
               (!p2.isEmpty) &&
                 match r3 with
                 | '-' :: r4 => (!r4.isEmpty) && r4.all (·.isDigit)
                 | _ => false
           | _ => false)
  | [] => false

/-- `isDynamicClass` from selectorStrategies.ts. -/
def isDynamicClass (className : String) : Bool :=
  reCssModules className || reEmotion className || reMuiClass className

/-- Regex matching a leading `[mp][trblxy]?` followed by a hyphen:
    margin/padding utility class. -/
def reSpacingUtil (s : String) : Bool :=
  match s.toList with
  | c1 :: '-' :: _ => c1 = 'm' || c1 = 'p'
  | c1 :: c2 :: '-' :: _ =>
      (c1 = 'm' || c1 = 'p') &&
        (c2 = 't' || c2 = 'r' || c2 = 'b' || c2 = 'l' || c2 = 'x' || c2 = 'y')
  | _ => false

/-- `isUtilityClass` from selectorStrategies.ts (Tailwind-style utilities). -/
def isUtilityClass (className : String) : Bool :=
  reSpacingUtil className ||
  strStarts className "text-" || strStarts className "bg-" ||
  strStarts className "flex" || strStarts className "grid" ||
  strStarts className "w-" || strStarts className "h-" ||
  strStarts className "hover:" || strStarts className "focus:" ||
  strStarts className "active:"

/-- Models the platform builtin `CSS.escape` (an external collaborator, not
    repository code): ASCII alphanumerics, hyphen and underscore pass through
    unchanged; every other character is backslash-escaped. All identifiers
    exercised by the proofs below lie in the pass-through range, where the
    real builtin is also the identity. -/
def cssEscapeChar (c : Char) : String :=
  if c.isAlphanum || c = '-' || c = '_' then String.singleton c
  else "\\" ++ String.singleton c

/-- Model of `CSS.escape` applied to a whole string. -/
def cssEscape (s : String) : String :=
  String.join (s.toList.map cssEscapeChar)

/-! ## Selector engine data model

  An `Elem` carries exactly the element state read by the selector
  strategies of selectorStrategies.ts; `Doc` carries the live-document
  queries (`document.querySelectorAll`) those strategies perform. -/

/-- One entry of `element.attributes`, in document order. -/
structure Attr where
  name : String
  value : String
deriving Repr, DecidableEq

/-- Runtime class of an element, as tested by `instanceof` in the source. -/
inductive ElemKind where
  | inputK
  | selectK
  | textareaK
  | otherK
deriving Repr, DecidableEq

/-- One step of the ancestor walk performed by the CSS-path and XPath
    strategies: the element's own entry first, then each parent, stopping
    before `document.body`.
    `sameTagSiblings` is the number of the parent's children sharing this
    node's tag (1 when the node has no parent), `nthOfType` the 1-based
    position among them, and `prevSameTag` the number of preceding siblings
    with the same tag. -/
structure PathEntry where
  tag : String
  id : String
  sameTagSiblings : Nat
  nthOfType : Nat
  prevSameTag : Nat
deriving Repr, DecidableEq

/-- The DOM element state read by the selector strategies. `tag` is the
    lowercase tag name; `classNameStr` models
    `typeof element.className === 'string'`; `directText` is the trimmed
    concatenation of the element's own text nodes (`getDirectText`);
    `chain` is the ancestor walk described at `PathEntry`. -/
structure Elem where
  tag : String
  id : String
  attrs : List Attr
  kind : ElemKind
  name : String
  classNameStr : Bool
  className : String
  classList : List String
  directText : String
  chain : List PathEntry
deriving Repr, DecidableEq

/-- The live document, abstracted to the two observations the engine makes:
    how many elements a selector matches, and whether evaluating it throws. -/
structure Doc where
  queryCount : String → Nat
  queryThrows : String → Bool

/-- `element.getAttribute(n)`: the first attribute with that name. -/
def getAttr (e : Elem) (n : String) : Option String :=
  (e.attrs.find? (fun a => a.name == n)).map (·.value)

/-- Strategy 1 (`getIdSelector`): `#id`, unless the id is empty (falsy)
    or looks dynamically generated. -/
def getIdSelector (e : Elem) : Option String :=
  if e.id = "" then none
  else if isDynamicId e.id then none
  else some ("#" ++ cssEscape e.id)

/-- The conventional test-id attribute names preferred by strategy 2. -/
def testIdNames : List String :=
  ["data-testid", "data-test", "data-cy", "data-automation"]

/-- Strategy 2 (`getDataAttributeSelector`): a stable `data-*` attribute,
    preferring conventional test ids, else the first stable one. -/
def getDataAttributeSelector (e : Elem) : Option String :=
  let dataAttrs := e.attrs.filter
    (fun a => strStarts a.name "data-" && !isDynamicValue a.value)
  if dataAttrs.isEmpty then none
  else
    match dataAttrs.find? (fun a => testIdNames.contains a.name) with
    | some t => some ("[" ++ t.name ++ "=\"" ++ cssEscape t.value ++ "\"]")
    | none =>
        match dataAttrs.head? with
        | some a => some ("[" ++ a.name ++ "=\"" ++ cssEscape a.value ++ "\"]")
        | none => none

/-- Strategy 3 (`getAriaSelector`): `tag[aria-label="..."]` for a truthy,
    non-dynamic aria-label, else `[role="..."][aria-labelledby="..."]`
    when both attributes are truthy. -/
def getAriaSelector (e : Elem) : Option String :=
  let ariaLabel := getAttr e "aria-label"
  match ariaLabel with
  | some l =>
      if l ≠ "" && !isDynamicValue l then
        some (e.tag ++ "[aria-label=\"" ++ cssEscape l ++ "\"]")
      else
        getAriaRoleSelector e
  | none => getAriaRoleSelector e
where
  /-- The `role` + `aria-labelledby` fallback branch of `getAriaSelector`. -/
  getAriaRoleSelector (e : Elem) : Option String :=
    match getAttr e "role", getAttr e "aria-labelledby" with
    | some r, some l =>
        if r ≠ "" && l ≠ "" then
          some ("[role=\"" ++ r ++ "\"][aria-labelledby=\"" ++ l ++ "\"]")
        else none
    | _, _ => none

/-- Strategy 4 (`getNameSelector`): `tag[name="..."]`, only for
    input/select/textarea elements with a truthy, non-dynamic name. -/
def getNameSelector (e : Elem) : Option String :=
  if e.kind = .inputK || e.kind = .selectK || e.kind = .textareaK then
    if e.name = "" then none
    else if isDynamicValue e.name then none
    else some (e.tag ++ "[name=\"" ++ cssEscape e.name ++ "\"]")
  else none

/-- Strategy 5 (`getClassSelector`): tag plus up to three stable,
    non-utility class names, rejected when the document query throws or
    matches more than 10 elements. -/
def getClassSelector (doc : Doc) (e : Elem) : Option String :=
  if !e.classNameStr || e.className = "" then none
  else
    let classes := ((e.classList.filter (fun c => !isDynamicClass c)).filter
      (fun c => !isUtilityClass c)).take 3
    if classes.isEmpty then none
    else
      let classSelector := e.tag ++ "." ++ String.intercalate "." classes
      if doc.queryThrows classSelector then none
      else if doc.queryCount classSelector > 10 then none
      else some classSelector

/-- The tags eligible for the text strategy. -/
def textElements : List String := ["button", "a", "label", "span"]

/-- Strategy 6 (`getTextSelector`): a `:has-text("...")` pseudo-selector
    for short direct text on button/link/label/span elements. -/
def getTextSelector (e : Elem) : Option String :=
  let text := e.directText
  if text = "" || text.length > 50 then none
  else if !textElements.contains e.tag then none
  else
    let escapedText := String.mk (escapeQuotes text.toList)
    some (e.tag ++ ":has-text(\"" ++ escapedText ++ "\")")

/-- The per-node segments of the CSS path walk, element-first; a trusted
    (non-dynamic) id replaces the node's segment and stops the walk. -/
def cssPathSegs : List PathEntry → List String
  | [] => []
  | pe :: rest =>
      let selector := pe.tag ++
        (if pe.sameTagSiblings > 1 then
          ":nth-of-type(" ++ toString pe.nthOfType ++ ")"
        else "")
      if pe.id ≠ "" && !isDynamicId pe.id then
        ["#" ++ cssEscape pe.id]
      else selector :: cssPathSegs rest

/-- Strategy 7 (`getCssPathSelector`): the structural path joined with
    " > " (the source builds it by unshifting, so the walk is reversed).
    Returns the empty string when the element is `document.body` itself. -/
def getCssPathSelector (e : Elem) : String :=
  String.intercalate " > " (cssPathSegs e.chain).reverse

/-- The per-node segments of the XPath walk, element-first. -/
def xpathSegs : List PathEntry → List String
  | [] => []
  | pe :: rest =>
      if pe.id ≠ "" && !isDynamicId pe.id then
        ["//*[@id=\"" ++ pe.id ++ "\"]"]
      else (pe.tag ++ "[" ++ toString (pe.prevSameTag + 1) ++ "]") :: xpathSegs rest

/-- Strategy 8 (`getXPathSelector`): positional XPath with the
    "xpath://" marker the source prepends. -/
def getXPathSelector (e : Elem) : String :=
  "xpath://" ++ String.intercalate "/" (xpathSegs e.chain).reverse

/-! ## DOMAnalyzer: strategy assembly and confidence -/

/-- The result type `SelectorStrategy` of shared/types.ts. -/
structure SelectorStrategy where
  primary : String
  fallbacks : List String
  confidence : Nat
deriving Repr, DecidableEq

/-- The contribution of one strategy result to the `selectors` array:
    `if (sel) selectors.push(sel)` keeps a non-null, non-empty string. -/
def candidateOf : Option String → List String
  | some s => if s = "" then [] else [s]
  | none => []

/-- The `selectors` array built by `DOMAnalyzer.generateSelectorStrategy`:
    the eight strategies pushed in priority order (the sequential pushes of
    the source are written as one concatenation). -/
def candidates (doc : Doc) (e : Elem) : List String :=
  candidateOf (getIdSelector e) ++
  candidateOf (getDataAttributeSelector e) ++
  candidateOf (getAriaSelector e) ++
  candidateOf (getNameSelector e) ++
  candidateOf (getClassSelector doc e) ++
  candidateOf (getTextSelector e) ++
  candidateOf (some (getCssPathSelector e)) ++
  candidateOf (some (getXPathSelector e))

/-- The candidates contributed by strategies 2-8 only (everything below
    the id strategy in the priority order). -/
def lowerCandidates (doc : Doc) (e : Elem) : List String :=
  candidateOf (getDataAttributeSelector e) ++
  candidateOf (getAriaSelector e) ++
  candidateOf (getNameSelector e) ++
  candidateOf (getClassSelector doc e) ++
  candidateOf (getTextSelector e) ++
  candidateOf (some (getCssPathSelector e)) ++
  candidateOf (some (getXPathSelector e))

/-- The raw additive score of `DOMAnalyzer.calculateConfidence`, before
    clamping to 0..100 (the sequential `score +=` steps written as a sum). -/
def scoreStrat (doc : Doc) (selectors : List String) : Int :=
  (cond (selectors.any (fun s => strStarts s "#")) 40 0)
  + (cond (selectors.any (fun s => containsSub s "[data-")) 30 0)
  + (cond (selectors.any (fun s => containsSub s "[aria-")) 25 0)
  + (cond (selectors.any (fun s => containsSub s "[name=")) 20 0)
  + (cond (decide (3 ≤ selectors.length)) 10 0)
  + (match selectors.head? with
     | some s =>
        if doc.queryThrows s then -10
        else if doc.queryCount s = 1 then 20
        else if doc.queryCount s ≤ 5 then 10
        else 0
     | none => 0)

/-- `DOMAnalyzer.calculateConfidence`: the clamped score
    `Math.min(100, Math.max(0, score))`. (The `none` branch of the
    uniqueness check is unreachable from `generateSelectorStrategy`,
    whose selector list always contains the XPath candidate.) -/
def calculateConfidence (doc : Doc) (selectors : List String) : Nat :=
  (max 0 (min 100 (scoreStrat doc selectors))).toNat

/-- `DOMAnalyzer.generateSelectorStrategy`: primary is
    `selectors[0] || getCssPathSelector(element) || 'body'`, fallbacks are
    `selectors.slice(1)`. -/
def generateSelectorStrategy (doc : Doc) (e : Elem) : SelectorStrategy :=
  let selectors := candidates doc e
  { primary :=
      match selectors with
      | [] =>
          let c := getCssPathSelector e
          if c = "" then "body" else c
      | s :: _ =>
          if s = "" then
            let c := getCssPathSelector e
            if c = "" then "body" else c
          else s
    fallbacks := selectors.drop 1
    confidence := calculateConfidence doc selectors }

/-- The operation named by the confidence-monotonicity property: set a
    `data-testid` attribute on an element that did not have one
    (`setAttribute` appends to the attribute list), all else equal. -/
def addTestid (e : Elem) (v : String) : Elem :=
  { e with attrs := e.attrs ++ [⟨"data-testid", v⟩] }

/-! ## PageLoadDetector timing model

  The injectable detector (part_012) races `performAllChecks` against the
  `createTimeout` promise. The model makes the asynchronous timing explicit:
  an environment fixes when each phase of `performAllChecks` completes on
  the observed document (`domStableAt = none` models a document that never
  stops mutating, so the DOM-stability phase never resolves), whether the
  body throws, and when the `setTimeout` callback of `createTimeout`
  actually runs (`timerFireAt`; real timers never fire early and may fire
  a little late). All times are milliseconds from the start of
  `waitForPageReady`. -/

/-- The `checks` record of `PageReadinessState`. -/
structure ReadinessChecks where
  domStable : Bool
  resourcesLoaded : Bool
  noSkeletons : Bool
deriving Repr, DecidableEq

/-- The `PageReadinessState` result type (part_012). -/
structure PageReadinessState where
  isReady : Bool
  reason : String
  duration : Nat
  checks : ReadinessChecks
deriving Repr, DecidableEq

/-- Timing environment of one `waitForPageReady` run. -/
structure PageEnv where
  maxTimeout : Nat
  domStableAt : Option Nat
  resourcesDuration : Nat
  skeletonDuration : Nat
  timerFireAt : Nat
  fault : Option (Nat × String)

/-- Outcome of an asynchronous computation: it resolves at a time with a
    value, rejects at a time with an error message, or never settles. -/
inductive AsyncOutcome (α : Type) where
  | resolves (t : Nat) (v : α)
  | throwsAt (t : Nat) (msg : String)
  | never
deriving Repr, DecidableEq

/-- `PageLoadDetector.performAllChecks` under the timing environment:
    the three awaited phases in order, with the two in-body elapsed-time
    checks (`Date.now() - startTime >= this.maxTimeout`) after the DOM
    stability and resource phases. -/
def performAllChecks (env : PageEnv) : AsyncOutcome PageReadinessState :=
  match env.fault with
  | some (t, msg) => .throwsAt t msg
  | none =>
    match env.domStableAt with
    | none => .never
    | some t1 =>
        if t1 ≥ env.maxTimeout then
          .resolves t1
            ⟨false, "Timeout after DOM stability", t1, ⟨true, false, false⟩⟩
        else
          let t2 := t1 + env.resourcesDuration
          if t2 ≥ env.maxTimeout then
            .resolves t2
              ⟨true, "Resources loaded (timeout before skeleton check)", t2,
                ⟨true, true, false⟩⟩
          else
            let t3 := t2 + env.skeletonDuration
            .resolves t3 ⟨true, "All checks passed", t3, ⟨true, true, true⟩⟩

/-- The value `PageLoadDetector.createTimeout` resolves with (its
    `duration` field is the configured `maxTimeout`, not the elapsed
    time). -/
def timeoutState (env : PageEnv) : PageReadinessState :=
  ⟨true, "Max timeout reached", env.maxTimeout, ⟨false, false, false⟩⟩

/-- A settled outcome of the promise race. -/
inductive Settled (α : Type) where
  | ok (t : Nat) (v : α)
  | err (t : Nat) (msg : String)
deriving Repr, DecidableEq

/-- `Promise.race([a, timeout])`: the earliest settlement wins (the first
    argument on a tie, matching its position in the raced array); a
    rejection only propagates if it settles first. The timeout promise
    always resolves, so the race always settles. -/
def raceWithTimeout (a : AsyncOutcome PageReadinessState) (bt : Nat)
    (bv : PageReadinessState) : Settled PageReadinessState :=
  match a with
  | .never => .ok bt bv
  | .resolves t v => if t ≤ bt then .ok t v else .ok bt bv
  | .throwsAt t msg => if t ≤ bt then .err t msg else .ok bt bv

/-- `PageLoadDetector.waitForPageReady`: race the checks against the
    timeout, overwrite `duration` with the elapsed time, and convert a
    rejection into the catch-branch result. -/
def waitForPageReady (env : PageEnv) : PageReadinessState :=
  match raceWithTimeout (performAllChecks env) env.timerFireAt (timeoutState env) with
  | .ok t v => { v with duration := t }
  | .err t msg =>
      ⟨false, "Detection error: " ++ msg, t, ⟨false, false, false⟩⟩

/-- The wall-clock time at which `waitForPageReady` settles. -/
def resolveTime (env : PageEnv) : Nat :=
  match raceWithTimeout (performAllChecks env) env.timerFireAt (timeoutState env) with
  | .ok t _ => t
  | .err t _ => t

/-! ## RecorderController: capture-timing policy -/

/-- `RecorderController.shouldCaptureVisual`: the step types that get a
    screenshot (the `EVENT_TYPES` string constants of shared/constants.ts). -/
def shouldCaptureVisual (stepType : String) : Bool :=
  ["click", "submit", "navigation", "pageLoad"].contains stepType

/-- `RecorderController.isNavigationEvent`. `href` is the step's recorded
    `metadata.href`; `none` models an absent key or `undefined`, and the
    guard `if (step.metadata?.href)` additionally rejects the empty string
    (falsy in JavaScript). -/
def isNavigationEvent (stepType : String) (href : Option String) : Bool :=
  if stepType = "submit" then true
  else if stepType = "click" then
    match href with
    | some h =>
        if h ≠ "" then
          !strStarts h "javascript:" && !strStarts h "#"
        else false
    | none => false
  else false

/-- How `handleRecordStep` captures the screenshot for a step (given that
    recording is active and a current tab exists): non-visual step types are
    skipped; navigation events are captured immediately with no readiness
    wait; everything else awaits `waitForPageReadiness` first. -/
inductive CaptureMode where
  | immediate
  | smart
  | skip
deriving Repr, DecidableEq

/-- The capture decision taken by `RecorderController.handleRecordStep`. -/
def captureDecision (stepType : String) (href : Option String) : CaptureMode :=
  if !shouldCaptureVisual stepType then .skip
  else if isNavigationEvent stepType href then .immediate
  else .smart

/-! ## Recorder (content script): input masking -/

namespace Recorder

/-- Whether an input-event target is an `HTMLInputElement` or an
    `HTMLTextAreaElement` (the two runtime classes `handleInput` sees). -/
inductive FieldKind where
  | inputF
  | textareaF
deriving Repr, DecidableEq

/-- The state of a text-entry field read by `handleInput` and
    `shouldMaskValue`. -/
structure FormField where
  kind : FieldKind
  fieldType : String
  name : String
  id : String
  value : String
  inDocument : Bool
deriving Repr, DecidableEq

/-- The sensitive-field name patterns of `shouldMaskValue`. -/
def sensitivePatterns : List String :=
  ["password", "passwd", "pwd", "cc", "card", "cvv", "ssn"]

/-- Does the field's lowercased `name` or `id` contain a sensitive
    pattern? (The second branch of `shouldMaskValue`.) -/
def hasSensitiveName (f : FormField) : Bool :=
  sensitivePatterns.any
    (fun p => containsSub (strToLower f.name) p || containsSub (strToLower f.id) p)

/-- `Recorder.shouldMaskValue`: mask unconditionally for
    `type === 'password'`, otherwise by sensitive name/id patterns — but
    only for `HTMLInputElement` targets; every other element returns
    false. -/
def shouldMaskValue (f : FormField) : Bool :=
  if f.kind = .inputF then
    if f.fieldType = "password" then true
    else hasSensitiveName f
  else false

/-- `shouldCaptureElement` for a text field: attached to the document
    (a field is never a script or style element). -/
def shouldCaptureElement (f : FormField) : Bool :=
  f.inDocument

/-- The parts of the step record built by `Recorder.handleInput` that the
    masking policy concerns. -/
structure InputStep where
  value : String
  inputType : String
  name : String
deriving Repr, DecidableEq

/-- `Recorder.handleInput`: ignore non-capturable targets, otherwise record
    the (possibly masked) value with the input subtype metadata. -/
def handleInput (f : FormField) : Option InputStep :=
  if !shouldCaptureElement f then none
  else
    some
      { value := if shouldMaskValue f then "***MASKED***" else f.value
        inputType := if f.kind = .inputF then f.fieldType else "textarea"
        name := f.name }

end Recorder

/-! ## eventHandlers.ts: change events -/

namespace EventHandlers

/-- Runtime class of a change-event target, as tested by `instanceof` in
    `handleChange` and `shouldCaptureElement`. -/
inductive TargetKind where
  | inputT
  | selectT
  | textareaT
  | scriptT
  | styleT
  | otherT
deriving Repr, DecidableEq

/-- The state of a change-event target read by `handleChange`. -/
structure ChangeTarget where
  kind : TargetKind
  tag : String
  fieldType : String
  checked : Bool
  value : String
  selectedIndex : Int
  inDocument : Bool
deriving Repr, DecidableEq

/-- `shouldCaptureElement` of eventHandlers.ts: attached to the document
    and not a script or style element. -/
def shouldCaptureElement (t : ChangeTarget) : Bool :=
  t.inDocument && !(t.kind = .scriptT) && !(t.kind = .styleT)

/-- A recorded change value: string or boolean (the `value` variable of
    `handleChange` is `string | boolean`, initialised to `''`). -/
inductive ChangeValue where
  | strV (s : String)
  | boolV (b : Bool)
deriving Repr, DecidableEq

/-- The parts of the step built by `handleChange` that the claims concern:
    the recorded value and the metadata fields set per target kind. -/
structure ChangeStep where
  value : ChangeValue
  inputType : Option String
  selectedIndex : Option Int
  tagName : String
deriving Repr, DecidableEq

/-- `handleChange` of eventHandlers.ts: checkbox records `checked`, radio
    records the value, any other input type returns without a step; a
    select records value and selectedIndex; a target that is neither an
    input nor a select falls through and records the initial `''` value
    with only the tag-name metadata. -/
def handleChange (t : ChangeTarget) : Option ChangeStep :=
  if !shouldCaptureElement t then none
  else if t.kind = .inputT then
    if t.fieldType = "checkbox" then
      some ⟨.boolV t.checked, some "checkbox", none, t.tag⟩
    else if t.fieldType = "radio" then
      some ⟨.strV t.value, some "radio", none, t.tag⟩
    else none
  else if t.kind = .selectT then
    some ⟨.strV t.value, none, some t.selectedIndex, t.tag⟩
  else
    some ⟨.strV "", none, none, t.tag⟩

end EventHandlers

/-! ## Supporting lemmas -/

/-- Appending to a non-empty string yields a non-empty string. -/
lemma append_left_ne_empty (a b : String) (ha : a ≠ "") : a ++ b ≠ "" := by
  intro h
  apply ha
  have hl := congrArg String.length h
  rw [String.length_append] at hl
  have : a.length = 0 := by
    have : (("" : String)).length = 0 := rfl
    omega
  exact String.ext (List.length_eq_zero.mp this)

/-- The XPath strategy always produces a non-empty candidate. -/
lemma getXPathSelector_ne_empty (e : Elem) : getXPathSelector e ≠ "" :=
  append_left_ne_empty "xpath://" _ (by decide)

/-- Every string contributed to the selectors array is non-empty. -/
lemma mem_candidateOf {s : String} {o : Option String}
    (h : s ∈ candidateOf o) : s ≠ "" := by
  match o with
  | none => simp [candidateOf] at h
  | some v =>
      by_cases hv : v = "" <;> simp [candidateOf, hv] at h
      exact h ▸ hv

/-- The candidates contributed by strategies 3-8 (after the data-attribute
    strategy), shared shape for the claims about strategy priority. -/
def postDataCandidates (doc : Doc) (e : Elem) : List String :=
  candidateOf (getAriaSelector e) ++ candidateOf (getNameSelector e) ++
  candidateOf (getClassSelector doc e) ++ candidateOf (getTextSelector e) ++
  candidateOf (some (getCssPathSelector e)) ++
  candidateOf (some (getXPathSelector e))

/-- The selectors array decomposes as id candidate, then the rest. -/
lemma candidates_decomp (doc : Doc) (e : Elem) :
    candidates doc e = candidateOf (getIdSelector e) ++ lowerCandidates doc e := by
  unfold candidates lowerCandidates
  simp [List.append_assoc]

/-- The lower-priority candidates decompose as the data candidate, then
    the strategies after it. -/
lemma lowerCandidates_decomp (doc : Doc) (e : Elem) :
    lowerCandidates doc e
      = candidateOf (getDataAttributeSelector e) ++ postDataCandidates doc e := by
  unfold lowerCandidates postDataCandidates
  simp [List.append_assoc]

/-- The XPath contribution is a singleton. -/
lemma candidateOf_xpath (e : Elem) :
    candidateOf (some (getXPathSelector e)) = [getXPathSelector e] := by
  simp [candidateOf, getXPathSelector_ne_empty e]

/-- Strategies 3-8 always contribute at least the XPath candidate. -/
lemma postDataCandidates_ne_nil (doc : Doc) (e : Elem) :
    postDataCandidates doc e ≠ [] := by
  unfold postDataCandidates
  rw [candidateOf_xpath]
  intro h
  simp [List.append_eq_nil] at h

/-- The lower-priority candidates are never empty. -/
lemma lowerCandidates_ne_nil (doc : Doc) (e : Elem) :
    lowerCandidates doc e ≠ [] := by
  rw [lowerCandidates_decomp]
  intro h
  exact postDataCandidates_ne_nil doc e (List.append_eq_nil.mp h).2

/-- The selectors array is never empty. -/
lemma candidates_ne_nil (doc : Doc) (e : Elem) :
    candidates doc e ≠ [] := by
  rw [candidates_decomp]
  intro h
  exact lowerCandidates_ne_nil doc e (List.append_eq_nil.mp h).2

/-- Every candidate in the selectors array is a non-empty string. -/
lemma mem_candidates_ne_empty {doc : Doc} {e : Elem} {s : String}
    (h : s ∈ candidates doc e) : s ≠ "" := by
  unfold candidates at h
  simp only [List.mem_append] at h
  rcases h with (((((((h | h) | h) | h) | h) | h) | h) | h) <;>
    exact mem_candidateOf h

/-- When the selectors array is `s :: t`, the primary selector is `s`. -/
lemma primary_of_head {doc : Doc} {e : Elem} {s : String} {t : List String}
    (h : candidates doc e = s :: t) :
    (generateSelectorStrategy doc e).primary = s := by
  have hs : s ≠ "" := mem_candidates_ne_empty (h ▸ List.mem_cons_self s t)
  unfold generateSelectorStrategy
  simp [h, hs]

/-- A non-negative bonus is monotone in its boolean condition. -/
lemma cond_le_cond {b1 b2 : Bool} (h : b1 = true → b2 = true) {k : Int}
    (hk : 0 ≤ k) : (cond b1 k 0) ≤ (cond b2 k 0) := by
  cases b1 with
  | false => cases b2 <;> simp [hk]
  | true => rw [h rfl]

/-- The raw confidence score is monotone under adding candidates, as long
    as the head of the list (whose document uniqueness feeds the score)
    stays the same. -/
lemma scoreStrat_mono (doc : Doc) {s1 s2 : List String}
    (hsub : s1.Sublist s2) (hhead : s1.head? = s2.head?) :
    scoreStrat doc s1 ≤ scoreStrat doc s2 := by
  have hany : ∀ p : String → Bool, s1.any p = true → s2.any p = true := by
    intro p h
    rw [List.any_eq_true] at h ⊢
    obtain ⟨x, hx, hpx⟩ := h
    exact ⟨x, hsub.subset hx, hpx⟩
  have hlen : decide (3 ≤ s1.length) = true → decide (3 ≤ s2.length) = true := by
    simp only [decide_eq_true_eq]
    intro h
    exact le_trans h hsub.length_le
  unfold scoreStrat
  rw [hhead]
  have h1 := cond_le_cond (hany (fun s => strStarts s "#")) (by norm_num : (0:Int) ≤ 40)
  have h2 := cond_le_cond (hany (fun s => containsSub s "[data-")) (by norm_num : (0:Int) ≤ 30)
  have h3 := cond_le_cond (hany (fun s => containsSub s "[aria-")) (by norm_num : (0:Int) ≤ 25)
  have h4 := cond_le_cond (hany (fun s => containsSub s "[name=")) (by norm_num : (0:Int) ≤ 20)
  have h5 := cond_le_cond hlen (by norm_num : (0:Int) ≤ 10)
  omega

/-- The clamped confidence score inherits the monotonicity. -/
lemma calculateConfidence_mono (doc : Doc) {s1 s2 : List String}
    (hsub : s1.Sublist s2) (hhead : s1.head? = s2.head?) :
    calculateConfidence doc s1 ≤ calculateConfidence doc s2 := by
  unfold calculateConfidence
  exact Int.toNat_le_toNat
    (max_le_max le_rfl (min_le_min le_rfl (scoreStrat_mono doc hsub hhead)))

/-! Lemmas about `addTestid`: only the data-attribute strategy (and, through
    attribute lookup, potentially the ARIA strategy) reads the attribute
    list, so all other strategies are unchanged. -/

/-- Appending an attribute with a different name does not change a lookup. -/
lemma find?_append_single (l : List Attr) (a : Attr) (n : String)
    (h : a.name ≠ n) :
    ((l ++ [a]).find? (fun x => x.name == n))
      = l.find? (fun x => x.name == n) := by
  have ha : (a.name == n) = false := by simp [h]
  induction l with
  | nil => simp [List.find?, ha]
  | cons hd tl ih =>
      by_cases hdn : hd.name = n <;> simp [List.find?, hdn, ih]

/-- `getAttribute` is unchanged by setting `data-testid`. -/
lemma getAttr_addTestid (e : Elem) (v : String) (n : String)
    (h : n ≠ "data-testid") :
    getAttr (addTestid e v) n = getAttr e n := by
  have hattrs : (addTestid e v).attrs = e.attrs ++ [⟨"data-testid", v⟩] := rfl
  unfold getAttr
  rw [hattrs, find?_append_single e.attrs ⟨"data-testid", v⟩ n
    (fun hh => h hh.symm)]

/-- The role/labelledby branch of the ARIA strategy is unchanged. -/
lemma ariaRole_addTestid (e : Elem) (v : String) :
    getAriaSelector.getAriaRoleSelector (addTestid e v)
      = getAriaSelector.getAriaRoleSelector e := by
  unfold getAriaSelector.getAriaRoleSelector
  rw [getAttr_addTestid e v "role" (by decide),
    getAttr_addTestid e v "aria-labelledby" (by decide)]

/-- The ARIA strategy is unchanged by setting `data-testid`. -/
lemma getAria_addTestid (e : Elem) (v : String) :
    getAriaSelector (addTestid e v) = getAriaSelector e := by
  unfold getAriaSelector
  rw [getAttr_addTestid e v "aria-label" (by decide), ariaRole_addTestid]
  rfl

/-- The strategies after the data-attribute strategy are unchanged. -/
lemma postDataCandidates_addTestid (doc : Doc) (e : Elem) (v : String) :
    postDataCandidates doc (addTestid e v) = postDataCandidates doc e := by
  unfold postDataCandidates
  rw [getAria_addTestid]
  rfl

/-- An element with no `data-*` attribute gets no data-attribute
    candidate. -/
lemma getData_none (e : Elem)
    (hnodata : ∀ a ∈ e.attrs, strStarts a.name "data-" = false) :
    getDataAttributeSelector e = none := by
  unfold getDataAttributeSelector
  have hfilter : e.attrs.filter
      (fun a => strStarts a.name "data-" && !isDynamicValue a.value) = [] := by
    rw [List.filter_eq_nil_iff]
    intro a ha
    simp [hnodata a ha]
  simp [hfilter]

/-- After setting a stable `data-testid` on an element with no other
    `data-*` attribute, the data strategy returns the test-id selector. -/
lemma getData_addTestid (e : Elem) (v : String)
    (hnodata : ∀ a ∈ e.attrs, strStarts a.name "data-" = false)
    (hv : isDynamicValue v = false) :
    getDataAttributeSelector (addTestid e v)
      = some ("[data-testid=\"" ++ cssEscape v ++ "\"]") := by
  have hattrs : (addTestid e v).attrs = e.attrs ++ [⟨"data-testid", v⟩] := rfl
  have hfilter : e.attrs.filter
      (fun a => strStarts a.name "data-" && !isDynamicValue a.value) = [] := by
    rw [List.filter_eq_nil_iff]
    intro a ha
    simp [hnodata a ha]
  have hone : List.filter
      (fun a => strStarts a.name "data-" && !isDynamicValue a.value)
      [(⟨"data-testid", v⟩ : Attr)] = [⟨"data-testid", v⟩] := by
    simp [List.filter, hv]
    rw [show (strStarts "data-testid" "data-") = true from by decide]
  unfold getDataAttributeSelector
  rw [hattrs, List.filter_append, hfilter, hone]
  have hc : testIdNames.contains "data-testid" = true := by decide
  simp [List.find?, hc]
  rfl

/-! ## Claim theorems -/

/-- A document oracle where every selector matches exactly one element and
    none throws. -/
def oneDoc : Doc := ⟨fun _ => 1, fun _ => false⟩

/-- C7: for every element and document, `generateSelectorStrategy` returns
    a strategy whose primary is a non-empty string, equal to the first
    successful strategy in the priority order (the head of the `candidates`
    list, with the CSS-path/"body" fallback chain engaged only when that
    list is empty, which never happens), and whose fallbacks are all the
    other successful candidates in the same order. -/
theorem C7_primary_nonempty_first_success (doc : Doc) (e : Elem) :
    candidates doc e ≠ [] ∧
    (generateSelectorStrategy doc e).primary ≠ "" ∧
    (generateSelectorStrategy doc e).primary = (candidates doc e).headD "body" ∧
    (generateSelectorStrategy doc e).fallbacks = (candidates doc e).drop 1 := by
  have hne := candidates_ne_nil doc e
  obtain ⟨s, t, hc⟩ := List.exists_cons_of_ne_nil hne
  refine ⟨hne, ?_, ?_, rfl⟩
  · rw [primary_of_head hc]
    exact mem_candidates_ne_empty (hc ▸ List.mem_cons_self s t)
  · rw [primary_of_head hc, hc]
    rfl

/-- C7 witness: the theorem instantiated at a concrete element whose only
    candidates are the structural ones. -/
theorem C7_witness :
    candidates oneDoc ⟨"div", "", [], .otherK, "", true, "", [], "",
        [⟨"div", "", 1, 1, 0⟩]⟩ ≠ [] ∧
    (generateSelectorStrategy oneDoc ⟨"div", "", [], .otherK, "", true, "", [], "",
        [⟨"div", "", 1, 1, 0⟩]⟩).primary ≠ "" :=
  ⟨(C7_primary_nonempty_first_success oneDoc _).1,
    (C7_primary_nonempty_first_success oneDoc _).2.1⟩

/-- A dynamic-looking id makes the id strategy return null. -/
lemma getIdSelector_dynamic {e : Elem} (h : isDynamicId e.id = true) :
    getIdSelector e = none := by
  unfold getIdSelector
  by_cases hid : e.id = "" <;> simp [hid, h]

/-- With a dynamic id the selectors array contains exactly the
    lower-priority candidates. -/
lemma candidates_of_dynamic_id (doc : Doc) {e : Elem}
    (h : isDynamicId e.id = true) :
    candidates doc e = lowerCandidates doc e := by
  rw [candidates_decomp, getIdSelector_dynamic h]
  rfl

/-- C3 (amended): for every element whose id matches one of the code's
    dynamic-id patterns (e.g. "radix-42"), `getIdSelector` returns null and
    the primary selector is the first lower-priority candidate. (The spec's
    second example "a1b2c3d4e5f6g7h8" matches none of the patterns — see the
    counterexample.) -/
theorem C3_dynamic_id_avoided (doc : Doc) (e : Elem)
    (h : isDynamicId e.id = true) :
    getIdSelector e = none ∧
    lowerCandidates doc e ≠ [] ∧
    (generateSelectorStrategy doc e).primary
      = (lowerCandidates doc e).headD "body" := by
  refine ⟨getIdSelector_dynamic h, lowerCandidates_ne_nil doc e, ?_⟩
  obtain ⟨s, t, hc⟩ :=
    List.exists_cons_of_ne_nil (lowerCandidates_ne_nil doc e)
  have hcand : candidates doc e = s :: t := by
    rw [candidates_of_dynamic_id doc h, hc]
  rw [primary_of_head hcand, hc]
  rfl

/-- An element whose id is the spec example "radix-42". -/
def radixElem : Elem :=
  ⟨"div", "radix-42", [], .otherK, "", true, "", [], "",
    [⟨"div", "radix-42", 1, 1, 0⟩]⟩

/-- C3 witness: "radix-42" is dynamic, and for an element carrying it the
    primary selector comes from the lower-priority candidates. -/
theorem C3_witness :
    isDynamicId "radix-42" = true ∧
    (generateSelectorStrategy oneDoc radixElem).primary
      = (lowerCandidates oneDoc radixElem).headD "body" :=
  ⟨by decide, (C3_dynamic_id_avoided oneDoc radixElem (by decide)).2.2⟩

/-- An element whose id is the spec example "a1b2c3d4e5f6g7h8". -/
def hexLikeElem : Elem :=
  ⟨"div", "a1b2c3d4e5f6g7h8", [], .otherK, "", true, "", [], "",
    [⟨"div", "a1b2c3d4e5f6g7h8", 1, 1, 0⟩]⟩

/-- C3 counterexample: the spec example "a1b2c3d4e5f6g7h8" contains the
    letters g and h, which are not hex digits, so it matches none of the
    dynamic-id patterns: the id strategy returns the id selector and the
    primary selector is id-based, contradicting the claim. -/
theorem C3_counterexample :
    isDynamicId "a1b2c3d4e5f6g7h8" = false ∧
    getIdSelector hexLikeElem = some "#a1b2c3d4e5f6g7h8" ∧
    (generateSelectorStrategy oneDoc hexLikeElem).primary
      = "#a1b2c3d4e5f6g7h8" := by
  refine ⟨by decide, by decide, by decide⟩

/-- C8 (amended): adding a qualifying (non-dynamic) `data-testid` to an
    element with a stable id and no pre-existing `data-*` attribute does not
    decrease the confidence score: the primary selector (whose document
    uniqueness feeds the score) stays the id selector, and the new candidate
    can only switch bonus conditions on. Without a stable id the new
    data-testid candidate becomes the primary and its document uniqueness
    can lower the score — see the counterexample. -/
theorem C8_confidence_monotone (doc : Doc) (e : Elem) (v : String)
    (hid : e.id ≠ "") (hdyn : isDynamicId e.id = false)
    (hnodata : ∀ a ∈ e.attrs, strStarts a.name "data-" = false)
    (hv : isDynamicValue v = false) :
    (generateSelectorStrategy doc e).confidence
      ≤ (generateSelectorStrategy doc (addTestid e v)).confidence := by
  have hx : ("#" ++ cssEscape e.id) ≠ "" :=
    append_left_ne_empty "#" (cssEscape e.id) (by decide)
  have hdx : ("[data-testid=\"" ++ cssEscape v ++ "\"]") ≠ "" :=
    append_left_ne_empty ("[data-testid=\"" ++ cssEscape v) "\"]"
      (append_left_ne_empty "[data-testid=\"" (cssEscape v) (by decide))
  have hidsel : getIdSelector e = some ("#" ++ cssEscape e.id) := by
    unfold getIdSelector
    simp [hid, hdyn]
  have hidsame : getIdSelector (addTestid e v) = getIdSelector e := rfl
  have h1 : candidates doc e
      = ("#" ++ cssEscape e.id) :: postDataCandidates doc e := by
    rw [candidates_decomp, lowerCandidates_decomp, hidsel,
      getData_none e hnodata]
    simp [candidateOf, hx]
  have h2 : candidates doc (addTestid e v)
      = ("#" ++ cssEscape e.id)
          :: ("[data-testid=\"" ++ cssEscape v ++ "\"]")
          :: postDataCandidates doc e := by
    rw [candidates_decomp, lowerCandidates_decomp, hidsame, hidsel,
      getData_addTestid e v hnodata hv, postDataCandidates_addTestid]
    simp [candidateOf, hx, hdx]
  rw [show (generateSelectorStrategy doc e).confidence
        = calculateConfidence doc (candidates doc e) from rfl,
    show (generateSelectorStrategy doc (addTestid e v)).confidence
        = calculateConfidence doc (candidates doc (addTestid e v)) from rfl,
    h1, h2]
  apply calculateConfidence_mono
  · exact List.Sublist.cons₂ _ (List.sublist_cons_self _ _)
  · rfl

/-- A stable-id element with no data attribute, for the C8 witness. -/
def submitBtnElem : Elem :=
  ⟨"button", "submit-btn", [], .otherK, "", true, "", [], "",
    [⟨"button", "submit-btn", 1, 1, 0⟩]⟩

/-- C8 witness: the amended monotonicity at a concrete element. -/
theorem C8_witness :
    (generateSelectorStrategy oneDoc submitBtnElem).confidence
      ≤ (generateSelectorStrategy oneDoc (addTestid submitBtnElem "row")).confidence :=
  C8_confidence_monotone oneDoc submitBtnElem "row" (by decide) (by decide)
    (by decide) (by decide)

/-- A document in which the added test-id value matches 7 elements while
    everything else matches exactly one. -/
def sharedTestidDoc : Doc :=
  ⟨fun s => if s = "[data-testid=\"row\"]" then 7 else 1, fun _ => false⟩

/-- An id-less element whose only data attribute is a stable, unique
    `data-foo`. -/
def dataFooElem : Elem :=
  ⟨"div", "", [⟨"data-foo", "save"⟩], .otherK, "", true, "", [], "",
    [⟨"div", "", 1, 1, 0⟩]⟩

/-- C8 counterexample: adding the qualifying (non-dynamic) data-testid
    "row" to `dataFooElem` replaces the unique `data-foo` primary selector
    by a test-id selector matching 7 elements, and the confidence drops
    from 60 to 40 — the claimed monotonicity fails. -/
theorem C8_counterexample :
    isDynamicValue "row" = false ∧
    (generateSelectorStrategy sharedTestidDoc dataFooElem).confidence = 60 ∧
    (generateSelectorStrategy sharedTestidDoc (addTestid dataFooElem "row")).confidence = 40 ∧
    (generateSelectorStrategy sharedTestidDoc (addTestid dataFooElem "row")).confidence
      < (generateSelectorStrategy sharedTestidDoc dataFooElem).confidence := by
  refine ⟨by decide, by decide, by decide, by decide⟩

/-- C1: `waitForPageReady` settles no later than the `createTimeout` timer
    fires; whenever the timer's actual fire time is within `maxTimeout`
    plus a scheduling epsilon, the call resolves within `maxTimeout + eps`
    wall-clock time — for every environment, in particular for a document
    that never stops mutating (`domStableAt = none`). The second conjunct
    ties the bound to the returned state's `duration`. -/
theorem C1_readiness_termination (env : PageEnv) (eps : Nat)
    (h : env.timerFireAt ≤ env.maxTimeout + eps) :
    resolveTime env ≤ env.maxTimeout + eps ∧
    (waitForPageReady env).duration = resolveTime env := by
  constructor
  · have hb : resolveTime env ≤ env.timerFireAt := by
      unfold resolveTime raceWithTimeout
      cases performAllChecks env with
      | never => simp
      | resolves t v =>
          by_cases ht : t ≤ env.timerFireAt <;> simp [ht]
      | throwsAt t m =>
          by_cases ht : t ≤ env.timerFireAt <;> simp [ht]
    omega
  · unfold waitForPageReady resolveTime
    cases raceWithTimeout (performAllChecks env) env.timerFireAt (timeoutState env) <;> rfl

/-- A pathological page whose DOM never stops mutating: the DOM-stability
    phase never resolves, but the timeout timer fires at `maxTimeout`. -/
def infiniteMutationEnv : PageEnv := ⟨10000, none, 0, 0, 10000, none⟩

/-- C1 witness: on the infinitely-mutating page the call still resolves
    within `maxTimeout`. -/
theorem C1_witness :
    infiniteMutationEnv.timerFireAt ≤ infiniteMutationEnv.maxTimeout + 0 ∧
    resolveTime infiniteMutationEnv ≤ infiniteMutationEnv.maxTimeout + 0 :=
  ⟨by decide, (C1_readiness_termination infiniteMutationEnv 0 (by decide)).1⟩

/-- C2: `waitForPageReady` is a total function into `PageReadinessState`
    (the model of "never propagates an exception"), and when the body
    throws before the timeout promise settles, the catch branch converts
    the exception into a result with `isReady: false` whose reason carries
    the exception message — matching the code (and section 4.3 of the
    spec) rather than the `isReady: true` wording of section 3. -/
theorem C2_error_conversion (env : PageEnv) (t : Nat) (msg : String)
    (hf : env.fault = some (t, msg)) (ht : t ≤ env.timerFireAt) :
    waitForPageReady env =
      ⟨false, "Detection error: " ++ msg, t, ⟨false, false, false⟩⟩ := by
  unfold waitForPageReady
  have hp : performAllChecks env = .throwsAt t msg := by
    unfold performAllChecks
    rw [hf]
  rw [hp]
  unfold raceWithTimeout
  simp [ht]

/-- An environment whose detection body throws "boom" at 5ms. -/
def faultEnv : PageEnv := ⟨10000, some 1, 1, 1, 10000, some (5, "boom")⟩

/-- C2 witness: the converted error result at a concrete fault. -/
theorem C2_witness :
    waitForPageReady faultEnv =
      ⟨false, "Detection error: boom", 5, ⟨false, false, false⟩⟩ :=
  C2_error_conversion faultEnv 5 "boom" rfl (by decide)

/-- A run in which the pipeline completes DOM stability at 6000ms and
    resources at 6100ms but is still polling skeletons when the timeout
    timer fires at 10000ms. -/
def progressThenTimeoutEnv : PageEnv := ⟨10000, some 6000, 100, 5000, 10000, none⟩

/-- C6 counterexample: when the global timeout fires before all three
    phases complete, the returned state is the `createTimeout` result with
    every check false — even though the pipeline had completed the DOM
    stability and resource phases well before `maxTimeout`. The claim that
    the checks reflect how far the pipeline got is false: the timeout
    promise wins the race and reports no progress. -/
theorem C6_counterexample :
    waitForPageReady progressThenTimeoutEnv =
      ⟨true, "Max timeout reached", 10000, ⟨false, false, false⟩⟩ ∧
    progressThenTimeoutEnv.domStableAt = some 6000 ∧
    6000 + progressThenTimeoutEnv.resourcesDuration
      < progressThenTimeoutEnv.maxTimeout := by
  refine ⟨by decide, by decide, by decide⟩

/-- C6 (amended): the partial-progress results exist but are returned only
    when `performAllChecks` itself observes that `maxTimeout` has elapsed
    before the timeout promise settles (timers may fire late): then a page
    that completed the resources phase is reported ready with reason
    "Resources loaded (timeout before skeleton check)" and checks
    `{domStable: true, resourcesLoaded: true, noSkeletons: false}`;
    when the `createTimeout` promise wins the race instead, the result
    reports all checks false (see the counterexample). -/
theorem C6_partial_progress_on_late_timer (env : PageEnv) (t1 : Nat)
    (hf : env.fault = none) (hd : env.domStableAt = some t1)
    (h1 : t1 < env.maxTimeout)
    (h2 : env.maxTimeout ≤ t1 + env.resourcesDuration)
    (h3 : t1 + env.resourcesDuration ≤ env.timerFireAt) :
    waitForPageReady env =
      ⟨true, "Resources loaded (timeout before skeleton check)",
        t1 + env.resourcesDuration, ⟨true, true, false⟩⟩ := by
  have hp : performAllChecks env =
      .resolves (t1 + env.resourcesDuration)
        ⟨true, "Resources loaded (timeout before skeleton check)",
          t1 + env.resourcesDuration, ⟨true, true, false⟩⟩ := by
    unfold performAllChecks
    rw [hf, hd]
    have hn1 : ¬ (t1 ≥ env.maxTimeout) := by omega
    have hn2 : t1 + env.resourcesDuration ≥ env.maxTimeout := h2
    simp [hn1, hn2]
  unfold waitForPageReady
  rw [hp]
  unfold raceWithTimeout
  simp [h3]

/-- A run where resources complete at 11000ms (after `maxTimeout`) while
    the timer has not yet fired. -/
def lateTimerEnv : PageEnv := ⟨10000, some 5000, 6000, 0, 11100, none⟩

/-- C6 witness: the amended behaviour at a concrete late-timer run. -/
theorem C6_witness :
    waitForPageReady lateTimerEnv =
      ⟨true, "Resources loaded (timeout before skeleton check)",
        5000 + lateTimerEnv.resourcesDuration, ⟨true, true, false⟩⟩ :=
  C6_partial_progress_on_late_timer lateTimerEnv 5000 rfl rfl (by decide)
    (by decide) (by decide)

/-- The characterisation of `isNavigationEvent`: form submits, and clicks
    whose recorded href is a non-empty string that starts with neither
    "javascript:" nor "#". -/
lemma isNavigationEvent_iff (stepType : String) (href : Option String) :
    isNavigationEvent stepType href = true ↔
      (stepType = "submit" ∨ (stepType = "click" ∧
        ∃ h, href = some h ∧ h ≠ "" ∧
          strStarts h "javascript:" = false ∧ strStarts h "#" = false)) := by
  unfold isNavigationEvent
  by_cases hs : stepType = "submit"
  · simp [hs]
  · by_cases hc : stepType = "click"
    · cases href with
      | none => simp [hs, hc]
      | some h =>
          by_cases hh : h = ""
          · simp [hs, hc, hh]
          · simp [hs, hc, hh]
    · simp [hs, hc]

/-- C5 (amended): among the visually captured step types, the screenshot is
    taken in immediate mode exactly for form submits and clicks whose
    recorded href is a **non-empty** string starting with neither
    "javascript:" nor "#"; every other visually significant step awaits the
    readiness detector (smart mode). The non-emptiness condition is what
    the counterexample adds to the claim: `step.metadata?.href` is falsy
    for an empty recorded href. -/
theorem C5_immediate_iff_navigation (stepType : String) (href : Option String)
    (hvis : shouldCaptureVisual stepType = true) :
    (captureDecision stepType href = .immediate ↔
      (stepType = "submit" ∨ (stepType = "click" ∧
        ∃ h, href = some h ∧ h ≠ "" ∧
          strStarts h "javascript:" = false ∧ strStarts h "#" = false))) ∧
    (captureDecision stepType href ≠ .immediate →
      captureDecision stepType href = .smart) := by
  have hcd : captureDecision stepType href
      = if isNavigationEvent stepType href then CaptureMode.immediate
        else CaptureMode.smart := by
    unfold captureDecision
    rw [hvis]
    rfl
  refine ⟨?_, ?_⟩
  · rw [hcd, ← isNavigationEvent_iff stepType href]
    by_cases hn : isNavigationEvent stepType href <;> simp [hn]
  · rw [hcd]
    by_cases hn : isNavigationEvent stepType href <;> simp [hn]

/-- C5 witness: the characterisation instantiated at a form submit. -/
theorem C5_witness :
    (captureDecision "submit" none = .immediate ↔
      ("submit" = "submit" ∨ ("submit" = "click" ∧
        ∃ h, (none : Option String) = some h ∧ h ≠ "" ∧
          strStarts h "javascript:" = false ∧ strStarts h "#" = false))) ∧
    (captureDecision "submit" none ≠ .immediate →
      captureDecision "submit" none = .smart) :=
  C5_immediate_iff_navigation "submit" none (by decide)

/-- C5 counterexample: a click whose recorded href is the empty string
    (an anchor without an href attribute reports `href === ""`). The empty
    string starts with neither "javascript:" nor "#", so the claim demands
    immediate capture, but `step.metadata?.href` is falsy and the code
    takes the smart (readiness-wait) path. -/
theorem C5_counterexample :
    shouldCaptureVisual "click" = true ∧
    strStarts "" "javascript:" = false ∧
    strStarts "" "#" = false ∧
    captureDecision "click" (some "") = .smart := by
  refine ⟨by decide, by decide, by decide, by decide⟩

/-- C4: for every captured input element, the recorded value equals the
    mask marker whenever the type is password (whatever the field's
    content, including the empty string) or the name/id contains a
    sensitive pattern — even when the reported input type is plain text. -/
theorem C4_sensitive_masked (f : Recorder.FormField)
    (hkind : f.kind = Recorder.FieldKind.inputF)
    (hsens : f.fieldType = "password" ∨ Recorder.hasSensitiveName f = true)
    (hcap : Recorder.shouldCaptureElement f = true) :
    Recorder.handleInput f = some ⟨"***MASKED***", f.fieldType, f.name⟩ := by
  have hmask : Recorder.shouldMaskValue f = true := by
    unfold Recorder.shouldMaskValue
    rw [hkind]
    rcases hsens with h | h
    · simp [h]
    · by_cases hp : f.fieldType = "password" <;> simp [hp, h]
  unfold Recorder.handleInput
  simp [hcap, hmask, hkind]

/-- A password input whose content is the empty string. -/
def pwdField : Recorder.FormField := ⟨.inputF, "password", "", "", "", true⟩

/-- C4 witness: the empty password field records the mask marker. -/
theorem C4_witness :
    Recorder.handleInput pwdField = some ⟨"***MASKED***", "password", ""⟩ :=
  C4_sensitive_masked pwdField rfl (Or.inl rfl) rfl

/-- C10: the masking policy applies only to input elements: for every
    textarea, `shouldMaskValue` is false and the input handler records the
    raw value, whatever the name or id. -/
theorem C10_textarea_unmasked (f : Recorder.FormField)
    (hkind : f.kind = Recorder.FieldKind.textareaF)
    (hcap : Recorder.shouldCaptureElement f = true) :
    Recorder.shouldMaskValue f = false ∧
    Recorder.handleInput f = some ⟨f.value, "textarea", f.name⟩ := by
  have hmask : Recorder.shouldMaskValue f = false := by
    unfold Recorder.shouldMaskValue
    rw [hkind]
    rfl
  refine ⟨hmask, ?_⟩
  unfold Recorder.handleInput
  simp [hcap, hmask, hkind]

/-- A textarea whose name is the sensitive pattern "password". -/
def pwTextarea : Recorder.FormField :=
  ⟨.textareaF, "", "password", "", "hunter2", true⟩

/-- C10 witness: the sensitive-named textarea is recorded unmasked. -/
theorem C10_witness :
    Recorder.shouldMaskValue pwTextarea = false ∧
    Recorder.handleInput pwTextarea = some ⟨"hunter2", "textarea", "password"⟩ :=
  C10_textarea_unmasked pwTextarea rfl rfl

/-- C9 (amended): for a captured change target, an input records a step
    only as a checkbox (boolean checked with inputType metadata) or radio;
    any other input type records nothing; a select records its value and
    selectedIndex; and a target that is neither an input nor a select
    (e.g. a textarea) falls through and records a step with empty string
    value — the case the original claim excludes, see the counterexample. -/
theorem C9_change_target_policy (t : EventHandlers.ChangeTarget)
    (hcap : EventHandlers.shouldCaptureElement t = true) :
    (t.kind = .inputT → t.fieldType ≠ "checkbox" → t.fieldType ≠ "radio" →
        EventHandlers.handleChange t = none) ∧
    (t.kind = .inputT → t.fieldType = "checkbox" →
        EventHandlers.handleChange t
          = some ⟨.boolV t.checked, some "checkbox", none, t.tag⟩) ∧
    (t.kind = .inputT → t.fieldType = "radio" →
        EventHandlers.handleChange t
          = some ⟨.strV t.value, some "radio", none, t.tag⟩) ∧
    (t.kind = .selectT →
        EventHandlers.handleChange t
          = some ⟨.strV t.value, none, some t.selectedIndex, t.tag⟩) ∧
    (t.kind ≠ .inputT → t.kind ≠ .selectT →
        EventHandlers.handleChange t = some ⟨.strV "", none, none, t.tag⟩) := by
  refine ⟨?_, ?_, ?_, ?_, ?_⟩
  · intro h1 h2 h3
    unfold EventHandlers.handleChange
    simp [hcap, h1, h2, h3]
  · intro h1 h2
    unfold EventHandlers.handleChange
    simp [hcap, h1, h2]
  · intro h1 h2
    unfold EventHandlers.handleChange
    simp [hcap, h1, h2]
  · intro h1
    unfold EventHandlers.handleChange
    simp [hcap, h1]
  · intro h1 h2
    unfold EventHandlers.handleChange
    simp [hcap, h1, h2]

/-- A textarea change target attached to the document. -/
def texChangeTarget : EventHandlers.ChangeTarget :=
  ⟨.textareaT, "textarea", "", false, "abc", 0, true⟩

/-- C9 counterexample: a change event on a textarea — a target that is
    neither a checkbox input, a radio input, nor a select — still records
    a step (with empty string value), contradicting the claim's "only". -/
theorem C9_counterexample :
    EventHandlers.handleChange texChangeTarget
      = some ⟨.strV "", none, none, "textarea"⟩ ∧
    texChangeTarget.kind ≠ EventHandlers.TargetKind.inputT ∧
    texChangeTarget.kind ≠ EventHandlers.TargetKind.selectT := by
  refine ⟨by decide, by decide, by decide⟩

/-- A plain text input as a change target. -/
def textInputTarget : EventHandlers.ChangeTarget :=
  ⟨.inputT, "input", "text", false, "abc", 0, true⟩

/-- C9 witness: a change event on a plain text input records no step. -/
theorem C9_witness :
    EventHandlers.handleChange textInputTarget = none :=
  (C9_change_target_policy textInputTarget rfl).1 rfl (by decide) (by decide)
